import Mathlib

/-!
Verification of the CollabHub real-time conversation gateway
(backend/messaging/consumers.py) and background task queue
(backend/recommendations/tasks.py) against the system specification.

The gateway is embedded shallowly: the relational store is explicit state,
each consumer handler is a pure function from inputs and store to a new
store plus a list of observable actions (socket accept/close, group
join/leave, group broadcasts, frames written to the handler's own socket),
and the per-session delivery methods are functions from a broadcast event
to an optional outbound frame.  Text is modelled as List Char so that
character-level transforms (strip, HTML-entity escaping) are structural.
Time instants are modelled as integers; ISO rendering is irrelevant to the
properties proved here.
-/

namespace CollabHub

/-- Modelled from the spec: the Message record of the message store.
backend/messaging/models.py is not among the sources (only its importer,
consumers.py, is), so the fields follow spec section 3: identifier,
conversation reference, sender identity, text content, optional attachment
url and type, creation timestamp, read flag, read timestamp.  A newly
persisted message has read flag false and no read timestamp (spec:
message_broadcast carries is_read = false for a fresh message). -/
structure Message where
  id : Nat
  conversation_id : Nat
  sender_id : Nat
  content : List Char
  attachment_url : Option String
  attachment_type : Option String
  created_at : Int
  is_read : Bool
  read_at : Option Int
deriving DecidableEq

/-- Modelled from the spec: a conversation has an identifier and a set of
participant identities (spec section 3; backend/messaging/models.py is not
among the sources). -/
structure Conversation where
  id : Nat
  participants : List Nat
deriving DecidableEq

/-- The relational store as consumers.py sees it: conversations, messages,
and the id the store will assign to the next created message (spec: ids
are assigned at persistence time, monotonically increasing per store). -/
structure Store where
  conversations : List Conversation
  messages : List Message
  nextMessageId : Nat
deriving DecidableEq

/-- MessageConsumer.get_conversation (consumers.py lines 304-310):
Conversation.objects.get by id, returning none when it does not exist. -/
def get_conversation (db : Store) (conversation_id : Nat) : Option Conversation :=
  db.conversations.find? (fun c => c.id == conversation_id)

/-- MessageConsumer.is_conversation_participant (lines 312-319): re-fetch
the conversation and test membership; a missing conversation yields false. -/
def is_conversation_participant (db : Store) (conversation_id user_id : Nat) : Bool :=
  match get_conversation db conversation_id with
  | none => false
  | some c => c.participants.contains user_id

/-- Events published to a conversation group via channel_layer.group_send.
One constructor per event type string appearing in consumers.py. -/
inductive GroupEvent where
  | user_online (user_id : Nat) (username : String) (timestamp : Int)
  | user_offline (user_id : Nat) (timestamp : Int)
  | message_broadcast (id : Nat) (sender_id : Nat) (sender_name sender_avatar : String)
      (content : List Char) (timestamp : Int)
      (attachment_url attachment_type : Option String) (is_read : Bool)
  | typing_indicator (user_id : Nat) (username : String) (is_typing : Bool) (timestamp : Int)
  | message_read (message_id user_id : Nat) (timestamp : Int)
deriving DecidableEq

/-- Frames a session writes to its own client socket (the json payloads of
self.send in consumers.py, discriminated by their type field). -/
inductive OutFrame where
  | message (id sender_id : Nat) (sender_name sender_avatar : String)
      (content : List Char) (timestamp : Int)
      (attachment_url attachment_type : Option String) (is_read : Bool)
  | typing (user_id : Nat) (username : String) (is_typing : Bool) (timestamp : Int)
  | read_receipt (message_id user_id : Nat) (timestamp : Int)
  | user_online (user_id : Nat) (username : String) (timestamp : Int)
  | user_offline (user_id : Nat) (timestamp : Int)
  | error (message : String) (timestamp : Int)
deriving DecidableEq

/-- Observable actions a handler performs, in program order: close or accept
the transport, join or leave the broadcast group, publish an event to the
group, or write a frame to its own socket. -/
inductive Action where
  | close
  | accept
  | group_add
  | group_discard
  | group_send (e : GroupEvent)
  | send_self (f : OutFrame)
deriving DecidableEq

/-- The events a list of actions publishes to the group, in order. -/
def sentEvents (acts : List Action) : List GroupEvent :=
  acts.filterMap (fun a => match a with | .group_send e => some e | _ => none)

/-- Session lifecycle states (spec section 4.1). -/
inductive SessionState where
  | connecting
  | joined
  | closed
deriving DecidableEq

/-- MessageConsumer.connect (lines 41-87): fetch the conversation (close on
absence), check participant membership (close on failure), otherwise join
the group, accept, and broadcast user_online.  Returns the resulting
session state together with the actions performed, in program order. -/
def connect (db : Store) (conversation_id user_id : Nat) (username : String)
    (now : Int) : SessionState × List Action :=
  match get_conversation db conversation_id with
  | none => (.closed, [.close])
  | some _ =>
    if is_conversation_participant db conversation_id user_id then
      (.joined, [.group_add, .accept, .group_send (.user_online user_id username now)])
    else
      (.closed, [.close])

/-- MessageConsumer.disconnect (lines 88-107): broadcast user_offline and
leave the group.  Modelled from the spec: the session state machine of
section 4.1 invokes this handler only on the Joined to Closed transition
(a connection rejected during connect transitions directly to Closed with
no teardown side effects); the dispatch layer that enforces this is
framework code outside the sources. -/
def disconnect (st : SessionState) (user_id : Nat) (now : Int) : List Action :=
  match st with
  | .joined => [.group_send (.user_offline user_id now), .group_discard]
  | _ => []

/-- Python str.strip on the content: drop whitespace from both ends
(handle_message line 140). -/
def strip (l : List Char) : List Char :=
  ((l.dropWhile Char.isWhitespace).reverse.dropWhile Char.isWhitespace).reverse

/-- The double-quote character, written by code point to keep literals
unambiguous. -/
def quoteChar : Char := Char.ofNat 34

/-- The apostrophe character, written by code point to keep literals
unambiguous. -/
def aposChar : Char := Char.ofNat 39

/-- Python str.replace specialised to a single-character pattern, as used
by sanitize_content: every occurrence of the pattern character is replaced
by the replacement, all other characters are kept. -/
def replaceChar (p : Char) (r : List Char) : List Char → List Char
  | [] => []
  | c :: cs => (if c = p then r else [c]) ++ replaceChar p r cs

/-- MessageConsumer.sanitize_content (lines 365-374): five sequential
str.replace passes, escaping the ampersand first, then angle brackets,
double quote and apostrophe. -/
def sanitize_content (content : List Char) : List Char :=
  replaceChar aposChar (['&', '#', 'x', '2', '7', ';'])
    (replaceChar quoteChar (['&', 'q', 'u', 'o', 't', ';'])
      (replaceChar '>' (['&', 'g', 't', ';'])
        (replaceChar '<' (['&', 'l', 't', ';'])
          (replaceChar '&' (['&', 'a', 'm', 'p', ';']) content))))

/-- One simultaneous pass of HTML-entity escaping of a single character:
each of the five special characters maps to its entity, everything else to
itself. -/
def escapeOnce (c : Char) : List Char :=
  if c = '&' then ['&', 'a', 'm', 'p', ';']
  else if c = '<' then ['&', 'l', 't', ';']
  else if c = '>' then ['&', 'g', 't', ';']
  else if c = quoteChar then ['&', 'q', 'u', 'o', 't', ';']
  else if c = aposChar then ['&', '#', 'x', '2', '7', ';']
  else [c]

/-- One simultaneous escaping pass over a whole string: the specification
reading of single-pass escaping with no double-escaping. -/
def escapeOncePass : List Char → List Char
  | [] => []
  | c :: cs => escapeOnce c ++ escapeOncePass cs

/-- MessageConsumer.save_message (lines 321-336): Message.objects.create.
The id is the store's next id; read flag and read timestamp start at their
defaults (false, none: modelled from the spec, section 3, the model file
being outside the sources).  The create path of the reference store always
succeeds. -/
def save_message (db : Store) (conversation_id sender_id : Nat) (content : List Char)
    (attachment_url attachment_type : Option String) (now : Int) : Store × Message :=
  let m : Message :=
    { id := db.nextMessageId
      conversation_id := conversation_id
      sender_id := sender_id
      content := content
      attachment_url := attachment_url
      attachment_type := attachment_type
      created_at := now
      is_read := false
      read_at := none }
  ({ db with messages := db.messages ++ [m], nextMessageId := db.nextMessageId + 1 }, m)

/-- MessageConsumer.handle_message (lines 128-178): strip the raw content,
reject (error frame to the sender only) when empty or over 5000 characters,
otherwise sanitize, persist, and broadcast message_broadcast with the
stored content and is_read false. -/
def handle_message (db : Store) (conversation_id user_id : Nat)
    (sender_name sender_avatar : String) (raw : List Char)
    (attachment_url attachment_type : Option String) (now : Int) :
    Store × List Action :=
  let content := strip raw
  if content.length = 0 ∨ content.length > 5000 then
    (db, [.send_self (.error "Message must be 1-5000 characters" now)])
  else
    let content2 := sanitize_content content
    let r := save_message db conversation_id user_id content2 attachment_url attachment_type now
    (r.1, [.group_send (.message_broadcast r.2.id user_id sender_name sender_avatar
      r.2.content r.2.created_at r.2.attachment_url r.2.attachment_type false)])

/-- MessageConsumer.handle_typing (lines 180-202): broadcast the inbound
is_typing flag verbatim with the sender identity and a timestamp; no store
access of any kind. -/
def handle_typing (user_id : Nat) (username : String) (is_typing : Bool)
    (now : Int) : List Action :=
  [.group_send (.typing_indicator user_id username is_typing now)]

/-- The field update mark_message_read applies to the message table (lines
344-346): the message with the given id gets read flag true and the current
time as read timestamp. -/
def markUpdate (message_id : Nat) (now : Int) (x : Message) : Message :=
  if x.id == message_id then { x with is_read := true, read_at := some now } else x

/-- MessageConsumer.mark_message_read (lines 338-349): fetch the message by
id (returning false when absent); when the caller is not the sender, set
the read flag and read timestamp and save; return true. -/
def mark_message_read (db : Store) (message_id user_id : Nat) (now : Int) :
    Store × Bool :=
  match db.messages.find? (fun m => m.id == message_id) with
  | none => (db, false)
  | some m =>
    if m.sender_id ≠ user_id then
      ({ db with messages := db.messages.map (markUpdate message_id now) }, true)
    else
      (db, true)

/-- MessageConsumer.handle_read_receipt (lines 204-230): a falsy message_id
(absent, null, or 0) returns before any store access; otherwise call
mark_message_read and then, regardless of its result, broadcast
message_read to the group. -/
def handle_read_receipt (db : Store) (user_id : Nat) (message_id : Option Nat)
    (now : Int) : Store × List Action :=
  match message_id with
  | none => (db, [])
  | some mid =>
    if mid = 0 then (db, [])
    else
      let r := mark_message_read db mid user_id now
      (r.1, [.group_send (.message_read mid user_id now)])

/-- The per-session delivery methods (lines 236-298), dispatched on the
event type: message_broadcast and message_read and user_offline forward the
event to the client unconditionally; typing_indicator and user_online are
suppressed when the event's user id equals the receiving session's own
user id. -/
def deliver (self_user_id : Nat) : GroupEvent → Option OutFrame
  | .message_broadcast i s n a c t au ay r => some (.message i s n a c t au ay r)
  | .typing_indicator u n t ts =>
      if u ≠ self_user_id then some (.typing u n t ts) else none
  | .message_read m u ts => some (.read_receipt m u ts)
  | .user_online u n ts =>
      if u ≠ self_user_id then some (.user_online u n ts) else none
  | .user_offline u ts => some (.user_offline u ts)

/-- Fan one published event out to every session currently registered in
the group (identified by its user id), collecting the frames the sessions
emit to their clients. -/
def fanout (members : List Nat) (e : GroupEvent) : List (Nat × OutFrame) :=
  members.filterMap (fun s => (deliver s e).map (fun f => (s, f)))

/-- Fan a sequence of published events out to the group, in order. -/
def observeAll (members : List Nat) : List GroupEvent → List (Nat × OutFrame)
  | [] => []
  | e :: es => fanout members e ++ observeAll members es

/-- Outcome of running one task body: the function returns, or it raises
(abstracting the arbitrary python callables the queue carries). -/
inductive TaskOutcome where
  | success
  | failure (msg : String)
deriving DecidableEq

/-- A queued task: an identifier for the target function plus what running
it does (backend/recommendations/tasks.py, tuples put on the Queue). -/
structure Task where
  id : Nat
  outcome : TaskOutcome
deriving DecidableEq

/-- Log and execution events observable from the worker loop, in order:
a task starts, then either completes or has its failure logged. -/
inductive TraceEv where
  | started (id : Nat)
  | completed (id : Nat)
  | failed (id : Nat) (msg : String)
deriving DecidableEq

/-- TaskQueue._execute_task (tasks.py lines 53-63): run the task body; on
any exception, log the failure and return (never re-raise, never retry). -/
def execute_task (t : Task) : List TraceEv :=
  .started t.id ::
    match t.outcome with
    | .success => [.completed t.id]
    | .failure m => [.failed t.id m]

/-- TaskQueue._process_queue (lines 44-51): the single worker thread
dequeues and executes tasks one at a time, strictly in queue order, for as
long as the queue has tasks.  Modelled as the trace of processing a queue
snapshot. -/
def process_queue : List Task → List TraceEv
  | [] => []
  | t :: ts => execute_task t ++ process_queue ts

/-- TaskQueue.enqueue (lines 65-73): Queue.put appends at the tail. -/
def enqueue (q : List Task) (t : Task) : List Task :=
  q ++ [t]

/-- The Notification record as declared in backend/collaborations/models.py
(lines 170-213): its orm-queryable field names.  The model declares user,
type, title, message, link, related_user, is_read, created_at, plus the
implicit id — and in particular has no field named recipient and no field
named notification_type. -/
def notificationFieldNames : List String :=
  ["id", "user", "type", "title", "message", "link", "related_user",
   "is_read", "created_at"]

/-- Characters of an orm keyword up to the first double underscore, which
begins a lookup suffix. -/
def baseChars : List Char → List Char
  | [] => []
  | c :: cs =>
      if c = '_' ∧ cs.head? = some '_' then []
      else c :: baseChars cs

/-- Django resolves a filter keyword by its base field name, the part
before a double-underscore lookup suffix (created_at__gte resolves on the
field created_at). -/
def kwargBaseField (k : String) : String :=
  String.mk (baseChars k.data)

/-- Whether an orm keyword argument resolves on the Notification model; an
unresolvable keyword makes filter or create raise (FieldError or
TypeError). -/
def fieldResolves (k : String) : Bool :=
  notificationFieldNames.contains (kwargBaseField k)

/-- A persisted Notification row, with the fields of
collaborations/models.py lines 170-213 that send_notification_async could
populate. -/
structure Notification where
  id : Nat
  user : Nat
  type : String
  title : String
  message : String
  is_read : Bool
  created_at : Int
deriving DecidableEq

/-- State visible to the notification task: existing user ids, the
notification table, and the id the store assigns next. -/
structure NotifState where
  users : List Nat
  notifications : List Notification
  nextNotificationId : Nat
deriving DecidableEq

/-- A channel-layer publication to a personal broadcast group. -/
structure Publish where
  group : String
  title : String
  message : String
  notification_id : Nat
  notification_type : String
deriving DecidableEq

/-- send_notification_async (tasks.py lines 84-141): fetch the user (the
whole body is wrapped in a blanket except that logs and returns none);
filter for a duplicate with keywords recipient, title, created_at__gte —
a keyword that does not resolve on the Notification model raises FieldError
there, caught by the blanket except; otherwise skip on a duplicate within
5 seconds, else create the notification (keywords recipient, title,
message, notification_type — again raising if one does not resolve) and
publish to the personal group.  Returns the new state, the publications,
and the python return value. -/
def send_notification_async (st : NotifState) (now : Int) (user_id : Nat)
    (title message ntype : String) : NotifState × List Publish × Option Nat :=
  if ¬ st.users.contains user_id then
    (st, [], none)
  else if ¬ (fieldResolves "recipient" && fieldResolves "title"
      && fieldResolves "created_at__gte") then
    (st, [], none)
  else if 0 < (st.notifications.filter (fun n =>
      n.user == user_id && n.title == title && decide (now - 5 ≤ n.created_at))).length then
    (st, [], none)
  else if ¬ (fieldResolves "recipient" && fieldResolves "title"
      && fieldResolves "message" && fieldResolves "notification_type") then
    (st, [], none)
  else
    let note : Notification :=
      { id := st.nextNotificationId
        user := user_id
        type := ntype
        title := title
        message := message
        is_read := false
        created_at := now }
    let st2 : NotifState :=
      { st with
        notifications := st.notifications ++ [note]
        nextNotificationId := st.nextNotificationId + 1 }
    let pub : Publish :=
      { group := "user_" ++ toString user_id
        title := title
        message := message
        notification_id := note.id
        notification_type := ntype }
    (st2, [pub], some note.id)

/-- The empty store: no conversations, no messages. -/
def emptyStore : Store :=
  { conversations := [], messages := [], nextMessageId := 1 }

/-- Fixture: a message from sender 1 that is already read, with read
timestamp 10. -/
def readMsg : Message :=
  { id := 1
    conversation_id := 1
    sender_id := 1
    content := []
    attachment_url := none
    attachment_type := none
    created_at := 0
    is_read := true
    read_at := some 10 }

/-- Fixture: a store holding only the already-read message. -/
def readStore : Store :=
  { conversations := [], messages := [readMsg], nextMessageId := 2 }

/-- Fixture: a store with one conversation between users 1 and 2 and one
unread message from user 1. -/
def unreadMsg : Message :=
  { id := 1
    conversation_id := 1
    sender_id := 1
    content := ['h', 'i']
    attachment_url := none
    attachment_type := none
    created_at := 0
    is_read := false
    read_at := none }

/-- Fixture: a store holding one conversation of users 1 and 2 and the
unread message. -/
def convStore : Store :=
  { conversations := [{ id := 1, participants := [1, 2] }]
    messages := [unreadMsg]
    nextMessageId := 2 }

/-- Single-character replacement distributes over list append. -/
theorem replaceChar_append (p : Char) (r a b : List Char) :
    replaceChar p r (a ++ b) = replaceChar p r a ++ replaceChar p r b := by
  induction a with
  | nil => rfl
  | cons c cs ih => simp [replaceChar, ih]

/-- The five-pass sanitizer distributes over list append. -/
theorem sanitize_content_append (a b : List Char) :
    sanitize_content (a ++ b) = sanitize_content a ++ sanitize_content b := by
  simp [sanitize_content, replaceChar_append]

/-- On a single character the five sequential passes agree with the single
simultaneous escaping pass: the ampersand pass runs first, so the
ampersands introduced by the later entity substitutions are never
re-escaped. -/
theorem sanitize_single (c : Char) : sanitize_content [c] = escapeOnce c := by
  by_cases h1 : c = '&'
  · subst h1; decide
  · by_cases h2 : c = '<'
    · subst h2; decide
    · by_cases h3 : c = '>'
      · subst h3; decide
      · by_cases h4 : c = quoteChar
        · subst h4; decide
        · by_cases h5 : c = aposChar
          · subst h5; decide
          · simp [sanitize_content, replaceChar, escapeOnce, h1, h2, h3, h4, h5]

/-- The sanitizer equals one simultaneous escaping pass over the whole
string: no character is ever escaped twice. -/
theorem sanitize_content_eq_escapeOncePass (l : List Char) :
    sanitize_content l = escapeOncePass l := by
  induction l with
  | nil => rfl
  | cons c cs ih =>
    calc sanitize_content (c :: cs)
        = sanitize_content ([c] ++ cs) := rfl
      _ = sanitize_content [c] ++ sanitize_content cs := sanitize_content_append _ _
      _ = escapeOnce c ++ escapeOncePass cs := by rw [sanitize_single, ih]
      _ = escapeOncePass (c :: cs) := rfl

/-- The worker trace of a concatenated queue splits at the concatenation
point. -/
theorem process_queue_append (a b : List Task) :
    process_queue (a ++ b) = process_queue a ++ process_queue b := by
  induction a with
  | nil => rfl
  | cons t ts ih => simp [process_queue, ih]

/-- C6: an inbound message frame whose content is empty or longer than 5000
characters after trimming is rejected: the store is unchanged (nothing
persisted), the only action is a single error frame written to the
originating session's own socket, and no event is published to the group. -/
theorem handle_message_rejects_invalid (db : Store) (cid uid : Nat)
    (sn sa : String) (raw : List Char) (au ay : Option String) (now : Int)
    (h : (strip raw).length = 0 ∨ (strip raw).length > 5000) :
    handle_message db cid uid sn sa raw au ay now
      = (db, [.send_self (.error "Message must be 1-5000 characters" now)])
    ∧ sentEvents (handle_message db cid uid sn sa raw au ay now).2 = [] := by
  have he : handle_message db cid uid sn sa raw au ay now
      = (db, [.send_self (.error "Message must be 1-5000 characters" now)]) := by
    rcases h with h | h <;> simp [handle_message, h]
  exact ⟨he, by rw [he]; rfl⟩

/-- Closed instance of the rejection theorem: the empty submission is
rejected with one error frame to the sender, nothing stored, nothing
broadcast. -/
theorem handle_message_rejects_invalid_check :
    ((strip []).length = 0 ∨ (strip []).length > 5000)
    ∧ (handle_message { conversations := [], messages := [], nextMessageId := 1 }
          9 1 "n" "a" [] none none 0
        = ({ conversations := [], messages := [], nextMessageId := 1 },
           [.send_self (.error "Message must be 1-5000 characters" 0)])
      ∧ sentEvents (handle_message { conversations := [], messages := [], nextMessageId := 1 }
          9 1 "n" "a" [] none none 0).2 = []) :=
  ⟨Or.inl rfl,
   handle_message_rejects_invalid { conversations := [], messages := [], nextMessageId := 1 }
     9 1 "n" "a" [] none none 0 (Or.inl rfl)⟩

/-- C7: a typing frame is relayed verbatim: the handler publishes exactly
one typing_indicator event carrying the inbound is_typing flag, the sender
identity and a timestamp, touching no store; at delivery time a session
with the sender's user id suppresses it and every other session emits it. -/
theorem typing_relay_verbatim (uid : Nat) (un : String) (b : Bool) (now : Int) :
    handle_typing uid un b now = [.group_send (.typing_indicator uid un b now)]
    ∧ (∀ s : Nat, s ≠ uid →
        deliver s (.typing_indicator uid un b now) = some (.typing uid un b now))
    ∧ deliver uid (.typing_indicator uid un b now) = none := by
  refine ⟨rfl, ?_, ?_⟩
  · intro s hs
    have huid : uid ≠ s := fun e => hs e.symm
    simp [deliver, huid]
  · simp [deliver]

/-- Closed instance of the typing relay theorem at sender 1 and receiving
sessions 2 and 1. -/
theorem typing_relay_verbatim_check :
    handle_typing 1 "u" true 0 = [.group_send (.typing_indicator 1 "u" true 0)]
    ∧ deliver 2 (.typing_indicator 1 "u" true 0) = some (.typing 1 "u" true 0)
    ∧ deliver 1 (.typing_indicator 1 "u" true 0) = none :=
  ⟨(typing_relay_verbatim 1 "u" true 0).1,
   (typing_relay_verbatim 1 "u" true 0).2.1 2 (by decide),
   (typing_relay_verbatim 1 "u" true 0).2.2⟩

/-- C10: the user_offline delivery handler performs no self-filtering —
every session registered in the group at delivery time emits the frame,
including a session whose user id equals the departing user's (in contrast
with user_online and typing_indicator, which suppress the sender's own
sessions); and a read-receipt frame whose message_id is absent, null, or 0
returns before any store access, with no broadcast and no error frame. -/
theorem user_offline_unfiltered_and_falsy_receipt_guard :
    (∀ (s u : Nat) (ts : Int),
        deliver s (.user_offline u ts) = some (.user_offline u ts))
    ∧ (∀ (members : List Nat) (u : Nat) (ts : Int),
        fanout members (.user_offline u ts)
          = members.map (fun s => (s, OutFrame.user_offline u ts)))
    ∧ (∀ (u : Nat) (n : String) (ts : Int), deliver u (.user_online u n ts) = none)
    ∧ (∀ (u : Nat) (n : String) (b : Bool) (ts : Int),
        deliver u (.typing_indicator u n b ts) = none)
    ∧ (∀ (db : Store) (uid : Nat) (now : Int),
        handle_read_receipt db uid none now = (db, []))
    ∧ (∀ (db : Store) (uid : Nat) (now : Int),
        handle_read_receipt db uid (some 0) now = (db, [])) := by
  refine ⟨fun s u ts => rfl, ?_, ?_, ?_, fun db uid now => rfl, fun db uid now => rfl⟩
  · intro members u ts
    induction members with
    | nil => rfl
    | cons s ss ih => simp [fanout, deliver] at ih ⊢; exact ih
  · intro u n ts
    simp [deliver]
  · intro u n b ts
    simp [deliver]

/-- C8: the worker executes tasks strictly in enqueue order — for a queue
containing T1 anywhere before T2, all trace events of T1 precede all trace
events of T2, with the tail of the queue still processed afterwards; two
enqueues by one producer are executed in order; and a raising task yields
one started event followed by one logged-failure event, appears exactly
once in the trace, and leaves the remaining queue processing intact. -/
theorem task_queue_fifo_failure_isolated (l1 l2 l3 : List Task) (t1 t2 : Task)
    (em : String) :
    process_queue (l1 ++ t1 :: (l2 ++ t2 :: l3))
      = process_queue l1 ++ execute_task t1 ++ process_queue l2
        ++ execute_task t2 ++ process_queue l3
    ∧ process_queue (enqueue (enqueue l1 t1) t2)
      = process_queue l1 ++ execute_task t1 ++ execute_task t2
    ∧ execute_task { id := t1.id, outcome := .failure em }
      = [.started t1.id, .failed t1.id em] := by
  refine ⟨?_, ?_, rfl⟩
  · simp [process_queue_append, process_queue]
  · simp [enqueue, process_queue_append, process_queue]

/-- C1: a connection attempt against a missing conversation, or by a
non-participant, ends Closed with close as its only action: the session
never joins the group, publishes no user_online, and — the lifecycle
invoking the disconnect handler only from the Joined state — its teardown
publishes nothing either, so existing group members observe no frame
attributable to the rejected session. -/
theorem connect_rejection_no_side_effects (db : Store) (cid uid : Nat)
    (un : String) (now : Int)
    (h : get_conversation db cid = none
      ∨ is_conversation_participant db cid uid = false) :
    (connect db cid uid un now).1 = .closed
    ∧ (connect db cid uid un now).2 = [.close]
    ∧ Action.group_add ∉ (connect db cid uid un now).2
    ∧ ∀ members : List Nat,
        observeAll members (sentEvents ((connect db cid uid un now).2
          ++ disconnect (connect db cid uid un now).1 uid now)) = [] := by
  have hact : connect db cid uid un now = (.closed, [.close]) := by
    unfold connect
    rcases h with h | h
    · rw [h]
    · cases hg : get_conversation db cid with
      | none => rfl
      | some c => simp [h]
  refine ⟨by rw [hact], by rw [hact], by rw [hact]; decide, ?_⟩
  intro members
  rw [hact]
  rfl

/-- Closed instance of the rejection theorem: connecting to the missing
conversation 7 of the empty store ends Closed with no side effects. -/
theorem connect_rejection_no_side_effects_check :
    (get_conversation { conversations := [], messages := [], nextMessageId := 1 } 7 = none
      ∨ is_conversation_participant { conversations := [], messages := [], nextMessageId := 1 } 7 2 = false)
    ∧ ((connect { conversations := [], messages := [], nextMessageId := 1 } 7 2 "u" 0).1 = .closed
      ∧ (connect { conversations := [], messages := [], nextMessageId := 1 } 7 2 "u" 0).2 = [.close]
      ∧ Action.group_add ∉ (connect { conversations := [], messages := [], nextMessageId := 1 } 7 2 "u" 0).2
      ∧ ∀ members : List Nat,
          observeAll members (sentEvents ((connect { conversations := [], messages := [], nextMessageId := 1 } 7 2 "u" 0).2
            ++ disconnect (connect { conversations := [], messages := [], nextMessageId := 1 } 7 2 "u" 0).1 2 0)) = []) :=
  ⟨Or.inl rfl,
   connect_rejection_no_side_effects { conversations := [], messages := [], nextMessageId := 1 }
     7 2 "u" 0 (Or.inl rfl)⟩

/-- C2 counterexample: message 5 does not exist in the empty store, yet a
read-receipt for it still publishes a message_read event to the group —
refuting the claim that no message_read event is broadcast for a
nonexistent message. -/
theorem read_receipt_missing_message_still_broadcasts :
    ({ conversations := [], messages := [], nextMessageId := 1 } : Store).messages.find?
        (fun m => m.id == 5) = none
    ∧ ¬ sentEvents (handle_read_receipt
          { conversations := [], messages := [], nextMessageId := 1 } 1 (some 5) 0).2 = []
    ∧ (handle_read_receipt
          { conversations := [], messages := [], nextMessageId := 1 } 1 (some 5) 0).2
        = [.group_send (.message_read 5 1 0)] := by
  decide

/-- C2 amended: when the submitted message_id is nonzero and either refers
to no stored message or the submitter is the message's sender, the store is
unchanged (no read-flag mutation) and no error frame is returned — but the
handler still publishes one message_read event for the submitted id to the
group, since it broadcasts regardless of the mark_message_read result. -/
theorem read_receipt_noop_paths_still_broadcast (db : Store) (uid mid : Nat)
    (now : Int) (hmid : mid ≠ 0)
    (h : db.messages.find? (fun m => m.id == mid) = none
      ∨ ∃ m, db.messages.find? (fun m2 => m2.id == mid) = some m
          ∧ m.sender_id = uid) :
    handle_read_receipt db uid (some mid) now
      = (db, [.group_send (.message_read mid uid now)]) := by
  rcases h with h | ⟨m, hm, hs⟩
  · simp [handle_read_receipt, mark_message_read, hmid, h]
  · simp [handle_read_receipt, mark_message_read, hmid, hm, hs]

/-- Closed instance of the amended read-receipt theorem at the empty store
and message id 5. -/
theorem read_receipt_noop_paths_still_broadcast_check :
    ((5 : Nat) ≠ 0
      ∧ (({ conversations := [], messages := [], nextMessageId := 1 } : Store).messages.find?
            (fun m => m.id == 5) = none
        ∨ ∃ m, ({ conversations := [], messages := [], nextMessageId := 1 } : Store).messages.find?
              (fun m2 => m2.id == 5) = some m ∧ m.sender_id = 1))
    ∧ handle_read_receipt { conversations := [], messages := [], nextMessageId := 1 } 1 (some 5) 0
        = ({ conversations := [], messages := [], nextMessageId := 1 },
           [.group_send (.message_read 5 1 0)]) :=
  ⟨⟨by decide, Or.inl rfl⟩,
   read_receipt_noop_paths_still_broadcast
     { conversations := [], messages := [], nextMessageId := 1 } 1 5 0
     (by decide) (Or.inl rfl)⟩

/-- C3 counterexample: message 1 is already read with read timestamp 10; a
second read-receipt by the non-sender user 2 at time 20 leaves the flag
true but overwrites the stored read_at to 20 — refuting the claim that the
stored read_at timestamp is unchanged in effect. -/
theorem reread_overwrites_read_at :
    readMsg.is_read = true
    ∧ readMsg.read_at = some 10
    ∧ (handle_read_receipt readStore 2 (some 1) 20).1.messages
        = [{ readMsg with read_at := some 20 }]
    ∧ (some (20 : Int)) ≠ some 10 := by
  decide

/-- C3 amended: a second read-receipt by a non-sender participant on an
already-read message incurs no error, leaves the read flag at its previous
value true, overwrites the stored read_at with the time of the second call,
and still publishes the message_read event to the group. -/
theorem reread_keeps_flag_overwrites_timestamp (db : Store) (uid mid : Nat)
    (now : Int) (m : Message) (hmid : mid ≠ 0)
    (hm : db.messages.find? (fun x => x.id == mid) = some m)
    (hread : m.is_read = true) (hs : m.sender_id ≠ uid) :
    (handle_read_receipt db uid (some mid) now).1.messages
        = db.messages.map (markUpdate mid now)
    ∧ (markUpdate mid now m).is_read = m.is_read
    ∧ (markUpdate mid now m).read_at = some now
    ∧ (handle_read_receipt db uid (some mid) now).2
        = [.group_send (.message_read mid uid now)] := by
  have hid : (m.id == mid) = true := by
    have h2 := List.find?_some hm
    exact h2
  refine ⟨?_, ?_, ?_, ?_⟩
  · simp [handle_read_receipt, mark_message_read, hmid, hm, hs]
  · simp [markUpdate, hid, hread]
  · simp [markUpdate, hid]
  · simp [handle_read_receipt, mark_message_read, hmid, hm, hs]

/-- Closed instance of the amended re-read theorem: the concrete already-
read message of the counterexample store. -/
theorem reread_keeps_flag_overwrites_timestamp_check :
    ((1 : Nat) ≠ 0
      ∧ readStore.messages.find? (fun x => x.id == 1) = some readMsg
      ∧ readMsg.is_read = true
      ∧ readMsg.sender_id ≠ 2)
    ∧ (handle_read_receipt readStore 2 (some 1) 20).1.messages
        = readStore.messages.map (markUpdate 1 20) :=
  ⟨⟨by decide, by decide, by decide, by decide⟩,
   (reread_keeps_flag_overwrites_timestamp readStore 2 1 20 readMsg
      (by decide) (by decide) (by decide) (by decide)).1⟩

/-- C4: for a submitted message whose trimmed content is non-empty and at
most 5000 characters, the stored content is exactly one escaping pass over
the trimmed raw content (the sequential replaces, ampersand first, equal
the simultaneous single pass, so nothing is double-escaped), the broadcast
message_broadcast event carries exactly the stored content, and in
particular the submission of a script tag is persisted and broadcast in
entity-escaped form. -/
theorem message_content_single_pass_escape (db : Store) (cid uid : Nat)
    (sn sa : String) (raw : List Char) (au ay : Option String) (now : Int)
    (h : ¬ ((strip raw).length = 0 ∨ (strip raw).length > 5000)) :
    (handle_message db cid uid sn sa raw au ay now).1.messages
        = db.messages ++
          [{ id := db.nextMessageId
             conversation_id := cid
             sender_id := uid
             content := escapeOncePass (strip raw)
             attachment_url := au
             attachment_type := ay
             created_at := now
             is_read := false
             read_at := none }]
    ∧ (handle_message db cid uid sn sa raw au ay now).2
        = [.group_send (.message_broadcast db.nextMessageId uid sn sa
            (escapeOncePass (strip raw)) now au ay false)]
    ∧ sanitize_content ("<script>").data = ("&lt;script&gt;").data := by
  have h1 : strip raw ≠ [] := by
    intro hx
    exact h (Or.inl (by simp [hx]))
  have h2 : ¬ (strip raw).length > 5000 := fun hx => h (Or.inr hx)
  refine ⟨?_, ?_, by decide⟩
  · simp [handle_message, save_message, h1, h2, sanitize_content_eq_escapeOncePass]
  · simp [handle_message, save_message, h1, h2, sanitize_content_eq_escapeOncePass]

/-- Closed instance of the sanitization theorem: submitting the script tag
to the empty store persists and broadcasts its escaped form. -/
theorem message_content_single_pass_escape_check :
    (¬ ((strip ("<script>").data).length = 0
      ∨ (strip ("<script>").data).length > 5000))
    ∧ ((handle_message emptyStore 1 1 "n" "a" ("<script>").data none none 3).1.messages
        = emptyStore.messages ++
          [{ id := emptyStore.nextMessageId
             conversation_id := 1
             sender_id := 1
             content := escapeOncePass (strip ("<script>").data)
             attachment_url := none
             attachment_type := none
             created_at := 3
             is_read := false
             read_at := none }]
      ∧ (handle_message emptyStore 1 1 "n" "a" ("<script>").data none none 3).2
          = [.group_send (.message_broadcast emptyStore.nextMessageId 1 "n" "a"
              (escapeOncePass (strip ("<script>").data)) 3 none none false)]
      ∧ sanitize_content ("<script>").data = ("&lt;script&gt;").data) :=
  ⟨by decide,
   message_content_single_pass_escape emptyStore 1 1 "n" "a"
     ("<script>").data none none 3 (by decide)⟩

/-- C5: the read flag is monotone and sender-guarded: relating the message
table before and after any mark_message_read call position by position, a
message already read stays read (the flag never transitions back to
false), and any message the call changes at all ends read with the call's
time as read timestamp and was changed by a caller who is not its sender.
The store invariant that message ids are distinct (ids are assigned by the
store, monotonically increasing) is the hypothesis tying the changed row
to the row the guard inspected. -/
theorem read_flag_monotone_non_sender (db : Store) (mid uid : Nat) (now : Int)
    (hid : db.messages.Pairwise (fun a b => a.id ≠ b.id)) :
    List.Forall₂
      (fun old upd =>
        (old.is_read = true → upd.is_read = true)
        ∧ (upd ≠ old →
            uid ≠ old.sender_id ∧ upd.is_read = true ∧ upd.read_at = some now))
      db.messages (mark_message_read db mid uid now).1.messages := by
  cases hf : db.messages.find? (fun m => m.id == mid) with
  | none =>
    simp only [mark_message_read, hf]
    exact List.forall₂_same.mpr (fun x _ => ⟨fun hx => hx, fun hx => absurd rfl hx⟩)
  | some m =>
    by_cases hs : m.sender_id ≠ uid
    · have hmem : m ∈ db.messages := List.mem_of_find?_eq_some hf
      have hmid : (m.id == mid) = true := by
        have h2 := List.find?_some hf
        exact h2
      simp only [mark_message_read, hf, if_pos hs]
      rw [List.forall₂_map_right_iff]
      refine List.forall₂_same.mpr (fun x hx => ?_)
      by_cases hxm : (x.id == mid) = true
      · have hxid : x.id = mid := by simpa using hxm
        have hmid2 : m.id = mid := by simpa using hmid
        have hxe : x = m := by
          by_contra hne
          have hdiff : x.id ≠ m.id :=
            hid.forall (fun a b hab => hab.symm) hx hmem hne
          exact hdiff (by rw [hxid, hmid2])
        refine ⟨fun _ => by simp [markUpdate, hxm], fun _ => ?_⟩
        refine ⟨?_, by simp [markUpdate, hxm], by simp [markUpdate, hxm]⟩
        rw [hxe]
        exact fun e => hs e.symm
      · constructor
        · intro hx2
          simpa [markUpdate, hxm] using hx2
        · intro hne
          exact absurd (by simp [markUpdate, hxm]) hne
    · simp only [mark_message_read, hf, if_neg hs]
      exact List.forall₂_same.mpr (fun x _ => ⟨fun hx => hx, fun hx => absurd rfl hx⟩)

/-- Closed instance of the monotonicity theorem at the fixture store whose
single message is unread: user 2, who is not the sender, marks message 1 at
time 5. -/
theorem read_flag_monotone_non_sender_check :
    convStore.messages.Pairwise (fun a b => a.id ≠ b.id)
    ∧ List.Forall₂
        (fun old upd =>
          (old.is_read = true → upd.is_read = true)
          ∧ (upd ≠ old →
              (2 : Nat) ≠ old.sender_id ∧ upd.is_read = true ∧ upd.read_at = some 5))
        convStore.messages (mark_message_read convStore 1 2 5).1.messages :=
  ⟨by simp [convStore, unreadMsg],
   read_flag_monotone_non_sender convStore 1 2 5 (by simp [convStore, unreadMsg])⟩

/-- C9: send_notification_async never persists and never publishes, for
any state and input — the body filters and creates with the keywords
recipient and notification_type, which do not resolve on the Notification
model of collaborations/models.py (its fields are user and type), so every
execution raises inside the blanket except and returns none.  The closed
conjunct evaluates the failing input of the claim: an existing user with
no duplicate notification in the previous 5 seconds, for whom the claim
demands exactly one persisted record and one publication, still gets
nothing. -/
theorem send_notification_never_delivers :
    send_notification_async
        { users := [1], notifications := [], nextNotificationId := 1 }
        100 1 "T" "M" "info"
      = ({ users := [1], notifications := [], nextNotificationId := 1 }, [], none)
    ∧ ∀ (st : NotifState) (now : Int) (uid : Nat) (t m k : String),
        send_notification_async st now uid t m k = (st, [], none) := by
  have hgen : ∀ (st : NotifState) (now : Int) (uid : Nat) (t m k : String),
      send_notification_async st now uid t m k = (st, [], none) := by
    intro st now uid t m k
    unfold send_notification_async
    split
    · rfl
    · rw [if_pos (by decide)]
  exact ⟨hgen _ 100 1 "T" "M" "info", hgen⟩

end CollabHub
